import Mathlib

/-!
Verification development for the cure-connect-bot repository.

The backend route handlers (`backend/routes/*.js`) are embedded as pure Lean
functions.  All numeric constants appearing in the routes are exact multiples
of 0.01, so scores and confidences are represented as integers in hundredths
(0.70 becomes 70, 0.88 becomes 88, and so on); this re-encoding preserves every
ordering, equality and min/plus fact at issue.  Strings are manipulated through
their character lists so that all definitions evaluate inside the kernel.

The algorithmic core described in the specification (Embedding Index, Keyword
Fallback Retriever, Retrieval Orchestrator, Knowledge Graph Expander, Answer
Synthesizer) lives in the Python model scripts `models/qa.py` and
`models/medical_v3.py`, which are not part of the repository snapshot; those
components are modelled from the specification, as indicated by their doc
comments.
-/

/-! ### String helpers (kernel-computable counterparts of the JS string ops) -/

/-- Embedding of JavaScript `String.prototype.toLowerCase` (ASCII range). -/
def lowerStr (s : String) : String := ⟨s.data.map Char.toLower⟩

/-- Embedding of JavaScript `hay.includes(needle)`: substring containment. -/
def strContains (hay needle : String) : Bool :=
  hay.data.tails.any (fun t => needle.data.isPrefixOf t)

/-- Characters of `s` before the first space: JavaScript `s.split(' ')[0]`. -/
def firstWordChars : List Char → List Char
  | [] => []
  | c :: cs => if c = ' ' then [] else c :: firstWordChars cs

/-- Embedding of JavaScript `s.split(' ')[0]`. -/
def firstWord (s : String) : String := ⟨firstWordChars s.data⟩

/-- Embedding of JavaScript `s.trim()`. -/
def strTrim (s : String) : String :=
  ⟨((s.data.dropWhile Char.isWhitespace).reverse.dropWhile Char.isWhitespace).reverse⟩

/-- Embedding of JavaScript `s.split(sep)` for a one-character separator. -/
def splitOnChar (sep : Char) : List Char → List (List Char)
  | [] => [[]]
  | c :: cs =>
    if c = sep then [] :: splitOnChar sep cs
    else
      match splitOnChar sep cs with
      | [] => [[c]]
      | w :: ws => (c :: w) :: ws

/-- Embedding of JavaScript `s.replace(/"/g, '')`. -/
def stripQuotes (s : String) : String := ⟨s.data.filter (fun c => c ≠ '"')⟩

/-! ### Generic stable sorting by a descending key

JavaScript `Array.prototype.sort` with a comparator `(a, b) => f(b) - f(a)`
produces a list that is non-increasing in `f`; it is embedded as a stable
insertion sort with respect to the total preorder `descBy f`. -/

/-- The order relation realised by the JS comparator `(a, b) => f(b) - f(a)`:
`a` may come before `b` exactly when `f b ≤ f a`. -/
def descBy {α β : Type} [LinearOrder β] (f : α → β) (a b : α) : Prop := f b ≤ f a

instance {α β : Type} [LinearOrder β] (f : α → β) : IsTotal α (descBy f) :=
  ⟨fun a b => le_total (f b) (f a)⟩

instance {α β : Type} [LinearOrder β] (f : α → β) : IsTrans α (descBy f) :=
  ⟨fun _ _ _ h1 h2 => le_trans h2 h1⟩

instance {α β : Type} [LinearOrder β] (f : α → β) : DecidableRel (descBy f) :=
  fun a b => inferInstanceAs (Decidable (f b ≤ f a))

/-- Stable sort placing larger `f`-values first. -/
def sortDescBy {α β : Type} [LinearOrder β] (f : α → β) (l : List α) : List α :=
  l.insertionSort (descBy f)

theorem sortDescBy_perm {α β : Type} [LinearOrder β] (f : α → β) (l : List α) :
    (sortDescBy f l).Perm l :=
  List.perm_insertionSort (descBy f) l

theorem sortDescBy_sorted {α β : Type} [LinearOrder β] (f : α → β) (l : List α) :
    (sortDescBy f l).Pairwise (fun a b => f b ≤ f a) :=
  List.sorted_insertionSort (descBy f) l

theorem sortDescBy_headD_max {α β : Type} [LinearOrder β] (f : α → β) (l : List α)
    (h : l ≠ []) (d : α) :
    (sortDescBy f l).headD d ∈ l ∧ ∀ q ∈ l, f q ≤ f ((sortDescBy f l).headD d) := by
  have hperm := sortDescBy_perm f l
  have hsorted := sortDescBy_sorted f l
  cases hs : sortDescBy f l with
  | nil =>
    rw [hs] at hperm
    exact absurd hperm.symm.eq_nil h
  | cons p t =>
    rw [hs] at hperm hsorted
    rw [List.headD_cons]
    refine ⟨hperm.mem_iff.mp (List.mem_cons_self p t), ?_⟩
    intro q hq
    rcases List.mem_cons.mp (hperm.mem_iff.mpr hq) with hqp | hqt
    · exact le_of_eq (by rw [hqp])
    · exact List.rel_of_sorted_cons hsorted q hqt

/-! ### Medicine search result sorting (`routes/recommend.js`, `GET /search`)

`searchResults.sort((a, b) => b.match_score - a.match_score)` sorts the search
results strictly by descending `match_score`; the score is the sort key. -/

/-- A search result of the `GET /api/recommend/search` route: drug name and
match score (in hundredths: `0.9` is `90`). -/
structure SearchResult where
  drug_name : String
  match_score : ℤ
deriving DecidableEq

/-- Embedding of `searchResults.sort((a, b) => b.match_score - a.match_score)`. -/
def sortSearchResults (l : List SearchResult) : List SearchResult :=
  sortDescBy SearchResult.match_score l

/-! ### CSV-fallback recommendation path (`routes/recommend.js`, `POST /medicines`) -/

/-- A recommendation record pushed by the CSV fallback of `POST /medicines`.
`confidence_score` is in hundredths (`0.70` is `70`). -/
structure Recommendation where
  drug_name : String
  condition : String
  side_effects : String
  matched_symptoms : List String
  confidence_score : ℤ
  match_score : ℕ
  match_type : String
deriving DecidableEq

/-- Embedding of the per-symptom match test of the CSV fallback:
`conditionsLower.includes(symptomLower) ||
 symptomLower.includes(conditionsLower.split(' ')[0])`. -/
def symptomMatchesCondition (conditions symptom : String) : Bool :=
  let symptomLower := lowerStr symptom
  let conditionsLower := lowerStr conditions
  strContains conditionsLower symptomLower ||
    strContains symptomLower (firstWord conditionsLower)

/-- The `matchedSymptoms` array accumulated by the CSV fallback loop. -/
def matchedSymptomsOf (conditions : String) (symptoms : List String) : List String :=
  symptoms.filter (fun s => symptomMatchesCondition conditions s)

/-- The `matchScore` counter accumulated by the CSV fallback loop. -/
def matchScoreOf (conditions : String) (symptoms : List String) : ℕ :=
  (matchedSymptomsOf conditions symptoms).length

/-- Embedding of `Math.min(0.95, 0.5 + (matchScore * 0.15))` in hundredths. -/
def confidenceOf (matchScore : ℕ) : ℤ :=
  min 95 (50 + (matchScore : ℤ) * 15)

/-- The recommendations pushed by the condition-matching loop of the CSV
fallback: one record per drug row whose `matchScore` is positive.  A drug row
is `(drug_name, conditions, side_effects)`. -/
def conditionMatchRecs (drugsData : List (String × String × String))
    (symptoms : List String) : List Recommendation :=
  drugsData.filterMap (fun row =>
    let ms := matchScoreOf row.2.1 symptoms
    if 0 < ms then
      some ⟨row.1, row.2.1, row.2.2, matchedSymptomsOf row.2.1 symptoms,
            confidenceOf ms, ms, "condition_match"⟩
    else none)

/-- The comparator of `recommendations.sort`: descending `match_score`, ties by
descending `confidence_score`. -/
def recRel (a b : Recommendation) : Prop :=
  b.match_score < a.match_score ∨
    (a.match_score = b.match_score ∧ b.confidence_score ≤ a.confidence_score)

instance : DecidableRel recRel :=
  fun _ _ => inferInstanceAs (Decidable (_ ∨ _))

instance : IsTotal Recommendation recRel := by
  constructor
  intro a b
  rcases lt_trichotomy a.match_score b.match_score with h | h | h
  · exact Or.inr (Or.inl h)
  · rcases le_total a.confidence_score b.confidence_score with h' | h'
    · exact Or.inr (Or.inr ⟨h.symm, h'⟩)
    · exact Or.inl (Or.inr ⟨h, h'⟩)
  · exact Or.inl (Or.inl h)

instance : IsTrans Recommendation recRel := by
  constructor
  intro a b c hab hbc
  rcases hab with h1 | ⟨h1, h1'⟩
  · rcases hbc with h2 | ⟨h2, _⟩
    · exact Or.inl (h2.trans h1)
    · exact Or.inl (h2 ▸ h1)
  · rcases hbc with h2 | ⟨h2, h2'⟩
    · exact Or.inl (h1 ▸ h2)
    · exact Or.inr ⟨h1.trans h2, le_trans h2' h1'⟩

/-- Embedding of the `recommendations.sort(...)` call of the CSV fallback. -/
def sortRecs (l : List Recommendation) : List Recommendation :=
  l.insertionSort recRel

/-- The fixed general recommendation appended when no drug row matched. -/
def generalRecommendation (symptoms : List String) : Recommendation :=
  ⟨"Paracetamol", "General pain relief, fever reduction",
   "Rare: nausea, liver damage with overdose",
   symptoms.filter (fun s =>
     ["pain", "fever", "headache"].any (fun term => strContains (lowerStr s) term)),
   70, 0, "general_recommendation"⟩

/-- The `recommendations` array returned by the CSV fallback of
`POST /api/recommend/medicines`: match per drug row, sort, append the general
recommendation when empty, then `slice(0, top_k)`. -/
def csvMedicines (drugsData : List (String × String × String))
    (symptoms : List String) (top_k : ℕ) : List Recommendation :=
  let recs := sortRecs (conditionMatchRecs drugsData symptoms)
  let recs := if recs = [] then recs ++ [generalRecommendation symptoms] else recs
  recs.take top_k

/-! ### Medical QA route (`routes/qa.js`, `POST /ask`) -/

/-- The JSON object produced by the spawned `qa.py` process. -/
structure PyResult where
  status : String
  answer : String
  message : String
deriving DecidableEq

/-- The JSON body sent with `res.json` by the `/ask` route (`confidence` in
hundredths: `0.88` is `88`). -/
structure QABody where
  question : String
  answer : String
  confidence : ℤ
  model_used : String
deriving DecidableEq

/-- The HTTP outcome of the `/ask` route: a 400 rejection or a 200 JSON body. -/
inductive AskResponse where
  | badRequest (error : String)
  | json (body : QABody)
deriving DecidableEq

/-- The fallback scan over `medquad_processed.csv`: for each of the first 99
data lines, split on commas; when the line has at least two fields, a nonempty
question field whose lowercase form contains the first word of the lowercased
user question selects that line's answer (quotes stripped). -/
def fallbackScan (questionLower : String) : List String → Option String
  | [] => none
  | line :: rest =>
    if strTrim line ≠ "" then
      match splitOnChar ',' line.data with
      | csvQuestion :: answer :: _ =>
        if csvQuestion ≠ [] ∧
            strContains (lowerStr ⟨csvQuestion⟩) (firstWord questionLower) = true then
          some (stripQuotes ⟨answer⟩)
        else fallbackScan questionLower rest
      | _ => fallbackScan questionLower rest
    else fallbackScan questionLower rest

/-- The default fallback answer built before the CSV scan. -/
def defaultFallbackAnswer (question msg : String) : String :=
  "Educational information about: \"" ++ question ++
    "\". The QA model encountered an issue: " ++ msg

/-- The fallback response of the `/ask` route: best-effort answer from the CSV
(when present and matching) or the default message, with confidence `0.70` and
`model_used: 'Fallback mode'`; sent with `res.json`, hence HTTP 200. -/
def fallbackResponse (question msg : String) (csvLines : Option (List String)) :
    AskResponse :=
  let questionLower := lowerStr question
  let scanned :=
    match csvLines with
    | none => none
    | some lines => fallbackScan questionLower ((lines.drop 1).take 99)
  .json ⟨question, scanned.getD (defaultFallbackAnswer question msg), 70, "Fallback mode"⟩

/-- The try/catch around the model call of the `/ask` route: a successful
`qa.py` result is forwarded with confidence `0.88`; a non-success status is
thrown and, like a process failure, lands in the fallback branch. -/
def askModelResponse (question : String) (csvLines : Option (List String)) :
    Except String PyResult → AskResponse
  | .ok r =>
    if r.status = "success" then
      .json ⟨question, r.answer, 88, "qa.py (DPR + FAISS + Groq)"⟩
    else
      fallbackResponse question
        (if r.message ≠ "" then r.message else "Model execution failed") csvLines
  | .error msg => fallbackResponse question msg csvLines

/-- Embedding of the `POST /api/qa/ask` handler of `routes/qa.js`.
`modelResult` is the outcome of the spawned `qa.py` call (`.error` when the
process failed or timed out); `csvLines` is the content of
`medquad_processed.csv` when that file exists. -/
def askHandler (question : String) (modelResult : Except String PyResult)
    (csvLines : Option (List String)) : AskResponse :=
  if strTrim question = "" then .badRequest "Question is required"
  else askModelResponse question csvLines modelResult

/-- Predicate: the model invocation failed (process failure, or a result whose
status is not `success`, which the handler turns into a thrown error). -/
def modelFailed (modelResult : Except String PyResult) : Prop :=
  match modelResult with
  | .ok r => r.status ≠ "success"
  | .error _ => True

instance (mr : Except String PyResult) : Decidable (modelFailed mr) := by
  unfold modelFailed
  cases mr
  · exact inferInstanceAs (Decidable True)
  · exact inferInstanceAs (Decidable (_ ≠ _))

/-! ### Ranking with index tie-break

Sorting a scored, position-annotated list by descending score with ties broken
by the original position.  Both the spec-modelled Embedding Index and the
spec-modelled Keyword Fallback Retriever use this. -/

/-- Order on `(position, payload, score)` triples: higher score first, equal
scores in position order. -/
def rankRel {α β : Type} [LinearOrder β] (t u : ℕ × α × β) : Prop :=
  u.2.2 < t.2.2 ∨ (t.2.2 = u.2.2 ∧ t.1 ≤ u.1)

instance {α β : Type} [LinearOrder β] : DecidableRel (α := ℕ × α × β) rankRel :=
  fun _ _ => inferInstanceAs (Decidable (_ ∨ _))

instance {α β : Type} [LinearOrder β] : IsTotal (ℕ × α × β) rankRel := by
  constructor
  intro t u
  rcases lt_trichotomy t.2.2 u.2.2 with h | h | h
  · exact Or.inr (Or.inl h)
  · rcases le_total t.1 u.1 with h' | h'
    · exact Or.inl (Or.inr ⟨h, h'⟩)
    · exact Or.inr (Or.inr ⟨h.symm, h'⟩)
  · exact Or.inl (Or.inl h)

instance {α β : Type} [LinearOrder β] : IsTrans (ℕ × α × β) rankRel := by
  constructor
  intro t u v htu huv
  rcases htu with h1 | ⟨h1, h1'⟩
  · rcases huv with h2 | ⟨h2, _⟩
    · exact Or.inl (h2.trans h1)
    · exact Or.inl (h2 ▸ h1)
  · rcases huv with h2 | ⟨h2, h2'⟩
    · exact Or.inl (h1 ▸ h2)
    · exact Or.inr ⟨h1.trans h2, le_trans h1' h2'⟩

/-- Stable ranking of position-annotated scored entries. -/
def rankSort {α β : Type} [LinearOrder β] (l : List (ℕ × α × β)) :
    List (ℕ × α × β) :=
  l.insertionSort rankRel

theorem rankSort_perm {α β : Type} [LinearOrder β] (l : List (ℕ × α × β)) :
    (rankSort l).Perm l :=
  List.perm_insertionSort rankRel l

theorem rankSort_sorted {α β : Type} [LinearOrder β] (l : List (ℕ × α × β)) :
    (rankSort l).Pairwise rankRel :=
  List.sorted_insertionSort rankRel l

/-- On a list whose positions are distinct, ranking is pairwise strict: each
entry either has a strictly larger score than every later entry, or an equal
score and a strictly smaller original position. -/
theorem rankSort_pairwise_strict {α β : Type} [LinearOrder β]
    (l : List (ℕ × α × β)) (hnd : (l.map Prod.fst).Nodup) :
    (rankSort l).Pairwise
      (fun t u => u.2.2 < t.2.2 ∨ (t.2.2 = u.2.2 ∧ t.1 < u.1)) := by
  have hnd' : ((rankSort l).map Prod.fst).Nodup :=
    ((rankSort_perm l).map Prod.fst).nodup_iff.mpr hnd
  have hpw : (rankSort l).Pairwise (fun t u => t.1 ≠ u.1) :=
    List.pairwise_map.mp hnd'
  have hs := rankSort_sorted l
  refine (hs.and hpw).imp ?_
  rintro t u ⟨hrel | ⟨heq, hle⟩, hne⟩
  · exact Or.inl hrel
  · exact Or.inr ⟨heq, lt_of_le_of_ne hle hne⟩

/-! ### Spec-modelled core components

`models/qa.py` and `models/medical_v3.py` are referenced by the routes but are
not part of the repository snapshot; the components below are modelled from the
specification (sections 4.1 to 4.6). -/

/-- Modelled from the spec: a Document of the Embedding Index (section 3):
unique id, raw text, precomputed embedding vector.  Vector components are
integers; every ordering fact below is invariant under this choice of ordered
ring. -/
structure Document where
  id : ℕ
  text : String
  vec : List ℤ
deriving DecidableEq

/-- Modelled from the spec: the error taxonomy of `EmbeddingIndex.load` and
`EmbeddingIndex.query` (sections 4.1 and 7). -/
inductive IndexError where
  | dimensionMismatch
  | sizeMismatch
  | emptyIndex
deriving DecidableEq

/-- Modelled from the spec: the Embedding Index (section 4.1), holding the
loaded documents and the shared vector dimension `D`. -/
structure EmbeddingIndex where
  docs : List Document
  dim : ℕ
deriving DecidableEq

/-- Inner-product similarity between two vectors. -/
def dot (u v : List ℤ) : ℤ := (List.zipWith (fun a b => a * b) u v).sum

/-- The documents assembled by a successful load: metadata paired with its
vector. -/
def loadedDocs (documents : List (ℕ × String)) (vectors : List (List ℤ)) :
    List Document :=
  (documents.zip vectors).map (fun p => ⟨p.1.1, p.1.2, p.2⟩)

/-- Modelled from the spec: `EmbeddingIndex.load` (section 4.1, absent from the
snapshot with `models/qa.py`) — fails with `SizeMismatchError` if the vector
count differs from the document count, and with `DimensionMismatchError` if any
vector's dimension differs from `D`. -/
def EmbeddingIndex.load (dim : ℕ) (vectors : List (List ℤ))
    (documents : List (ℕ × String)) : Except IndexError EmbeddingIndex :=
  if vectors.length ≠ documents.length then .error .sizeMismatch
  else if vectors.any (fun v => v.length ≠ dim) then .error .dimensionMismatch
  else .ok ⟨loadedDocs documents vectors, dim⟩

/-- The documents of the index scored against a query vector, annotated with
their insertion position. -/
def scoredDocs (idx : EmbeddingIndex) (qv : List ℤ) : List (ℕ × Document × ℤ) :=
  idx.docs.enum.map (fun p => (p.1, p.2, dot qv p.2.vec))

/-- The scored documents ranked by descending similarity, ties broken by
insertion position. -/
def rankedDocs (idx : EmbeddingIndex) (qv : List ℤ) : List (ℕ × Document × ℤ) :=
  rankSort (scoredDocs idx qv)

/-- The result list of a successful query: the `k` best-ranked documents. -/
def queryResults (idx : EmbeddingIndex) (qv : List ℤ) (k : ℕ) :
    List (Document × ℤ) :=
  ((rankedDocs idx qv).take k).map (fun t => t.2)

/-- Modelled from the spec: `EmbeddingIndex.query` (section 4.1, absent from
the snapshot with `models/qa.py`) — fails with `EmptyIndexError` on an index
holding zero documents, fails with `DimensionMismatchError` on a query vector
whose dimension differs from `D` (never truncating or padding it), and
otherwise returns the at most `k` most similar documents, sorted by descending
similarity with ties broken by insertion order. -/
def EmbeddingIndex.query (idx : EmbeddingIndex) (qv : List ℤ) (k : ℕ) :
    Except IndexError (List (Document × ℤ)) :=
  if idx.docs = [] then .error .emptyIndex
  else if qv.length ≠ idx.dim then .error .dimensionMismatch
  else .ok (queryResults idx qv k)

/-! ### Spec-modelled Keyword Fallback Retriever (section 4.2) -/

/-- Modelled from the spec: case-insensitive tokenization — lowercase, split on
spaces, drop empty tokens. -/
def tokenize (s : String) : List String :=
  ((splitOnChar ' ' (lowerStr s).data).map (fun w => (⟨w⟩ : String))).filter
    (fun t => t ≠ "")

/-- Modelled from the spec: the token-overlap score — the number of distinct
query tokens occurring among the document's tokens. -/
def overlapCount (queryTokens docTokens : List String) : ℕ :=
  (queryTokens.dedup.filter (fun t => docTokens.contains t)).length

/-- The corpus scored by token overlap with the query, annotated with corpus
positions. -/
def keywordScored (queryText : String) (corpus : List Document) :
    List (ℕ × Document × ℕ) :=
  corpus.enum.map
    (fun p => (p.1, p.2, overlapCount (tokenize queryText) (tokenize p.2.text)))

/-- The scored corpus ranked by descending overlap, ties broken by corpus
order. -/
def keywordRanked (queryText : String) (corpus : List Document) :
    List (ℕ × Document × ℕ) :=
  rankSort (keywordScored queryText corpus)

/-- Modelled from the spec: `retrieve` of the Keyword Fallback Retriever
(section 4.2, absent from the snapshot with `models/qa.py`) — top-k documents
by descending token-overlap score, ties in original corpus order. -/
def keywordRetrieve (queryText : String) (corpus : List Document) (k : ℕ) :
    List Document :=
  ((keywordRanked queryText corpus).take k).map (fun t => t.2.1)

/-! ### Spec-modelled Retrieval Orchestrator (section 4.3) -/

/-- Modelled from the spec: the fixed synthetic score attached to documents
returned by the keyword fallback (section 4.3), in hundredths. -/
def fallbackScore : ℤ := 25

/-- Keep the first candidate carrying each document id not seen yet. -/
def dedupeByIdAux (seen : List ℕ) : List (Document × ℤ) → List (Document × ℤ)
  | [] => []
  | x :: xs =>
    if x.1.id ∈ seen then dedupeByIdAux seen xs
    else x :: dedupeByIdAux (x.1.id :: seen) xs

/-- Keep the first candidate carrying each document id (deduplication by
document id, preserving order). -/
def dedupeById (l : List (Document × ℤ)) : List (Document × ℤ) :=
  dedupeByIdAux [] l

/-- Modelled from the spec: `retrieveContext` (section 4.3, absent from the
snapshot with `models/qa.py`) — query the Embedding Index; on `EmptyIndexError`
fall back to the Keyword Fallback Retriever with the fixed synthetic score;
deduplicate by document id before truncating to `k`.  Configuration-class
errors (`DimensionMismatchError`) propagate to the caller (section 7). -/
def retrieveContext (idx : EmbeddingIndex) (question : String) (qv : List ℤ)
    (corpus : List Document) (k : ℕ) : Except IndexError (List (Document × ℤ)) :=
  match idx.query qv k with
  | .ok rs => .ok ((dedupeById rs).take k)
  | .error .emptyIndex =>
    .ok ((dedupeById ((keywordRetrieve question corpus k).map
          (fun d => (d, fallbackScore)))).take k)
  | .error e => .error e

/-! ### Spec-modelled Knowledge Graph Expander (section 4.4) -/

/-- Modelled from the spec: the knowledge graph — typed nodes referenced by
id, edges between node ids, and a directedness flag (section 3 / 4.4). -/
structure KGraph where
  nodes : List String
  edges : List (String × String)
  directed : Bool
deriving DecidableEq

/-- Modelled from the spec: adjacency enumeration branching on directedness
(section 4.4) — for a directed graph, successors and predecessors are
enumerated separately; for an undirected graph, plain neighbor enumeration. -/
def KGraph.neighbors (g : KGraph) (v : String) : List String :=
  if g.directed then
    ((g.edges.filter (fun e => e.1 = v)).map (fun e => e.2)) ++
      ((g.edges.filter (fun e => e.2 = v)).map (fun e => e.1))
  else
    g.edges.filterMap (fun e =>
      if e.1 = v then some e.2 else if e.2 = v then some e.1 else none)

/-- One breadth-first step: the nodes adjacent to the frontier that exist in
the graph and were not collected yet. -/
def KGraph.discover (g : KGraph) (collected frontier : List String) : List String :=
  ((frontier.flatMap g.neighbors).filter
    (fun n => g.nodes.contains n && !collected.contains n)).dedup

/-- The breadth-first loop: at each remaining hop, discover the next frontier
and collect it, capping the total at `maxNodes` breadth-first. -/
def KGraph.bfsLoop (g : KGraph) : ℕ → ℕ → List String → List String → List String
  | 0, _, collected, _ => collected
  | hops + 1, maxNodes, collected, frontier =>
    if maxNodes ≤ collected.length then collected
    else
      let discovered := (g.discover collected frontier).take (maxNodes - collected.length)
      g.bfsLoop hops maxNodes (collected ++ discovered) discovered

/-- Modelled from the spec: `KnowledgeGraphExpander.expand` (section 4.4,
absent from the snapshot with `models/medical_v3.py`) — breadth-first
traversal from the seed nodes present in the graph, bounded by `maxHops` and
`maxNodes`; absent seeds are silently dropped, and a fully absent seed set
yields the empty result rather than an error. -/
def KGraph.expand (g : KGraph) (seedNodeIds : List String)
    (maxHops maxNodes : ℕ) : List String :=
  let seeds := ((seedNodeIds.filter (fun s => g.nodes.contains s)).dedup).take maxNodes
  g.bfsLoop maxHops maxNodes seeds seeds

/-! ### Spec-modelled Answer Synthesizer (section 4.6) -/

/-- Modelled from the spec: a response of the external text-generation
service — a list of generated choices. -/
structure GenResponse where
  choices : List String
deriving DecidableEq

/-- Modelled from the spec: the failures of `synthesize` (sections 4.6 / 7). -/
inductive SynthError where
  | generationEmpty
  | serviceUnavailable
deriving DecidableEq

/-- Modelled from the spec: `AnswerSynthesizer.synthesize` (section 4.6,
absent from the snapshot with `models/qa.py`).  `first` and `second` are the
outcomes of the at most two calls made to the generation service (`.error` is
a transient network failure).  Returns the synthesized answer or the failure,
paired with the number of external calls actually made: a transient failure is
retried exactly once, while a response with zero choices fails immediately
with `GenerationEmptyError` and is never retried. -/
def synthesize (first second : Except Unit GenResponse) :
    Except SynthError String × ℕ :=
  match first with
  | .ok r =>
    match r.choices with
    | [] => (.error .generationEmpty, 1)
    | c :: _ => (.ok c, 1)
  | .error _ =>
    match second with
    | .ok r =>
      match r.choices with
      | [] => (.error .generationEmpty, 2)
      | c :: _ => (.ok c, 2)
    | .error _ => (.error .serviceUnavailable, 2)

/-- Modelled from the spec: the confidence reported with a successfully
synthesized answer (in hundredths; the repository's QA route reports 0.88). -/
def answerConfidence : ℤ := 88

/-- Modelled from the spec: the lowered confidence reported by the fallback
(in hundredths; the repository's QA route reports 0.70). -/
def loweredConfidence : ℤ := 70

/-- The context passages sorted by descending score. -/
def sortPassages (context : List (String × ℤ)) : List (String × ℤ) :=
  sortDescBy Prod.snd context

/-- The highest-scored context passage (the empty passage on empty context). -/
def topPassage (context : List (String × ℤ)) : String :=
  ((sortPassages context).headD ("", 0)).1

/-- Modelled from the spec: the orchestrator around `synthesize` (sections 4.6
/ 7) — on success, the synthesized answer with the normal confidence; on
failure, the single highest-scored context passage verbatim with the lowered
confidence. -/
def answerPipeline (context : List (String × ℤ))
    (first second : Except Unit GenResponse) : String × ℤ :=
  match (synthesize first second).1 with
  | .ok ans => (ans, answerConfidence)
  | .error _ => (topPassage context, loweredConfidence)

/-! ### Response accessors -/

/-- Whether the `/ask` route answered with `res.json` (HTTP 200). -/
def AskResponse.isJson : AskResponse → Bool
  | .badRequest _ => false
  | .json _ => true

/-- The `confidence` field of the JSON body, when one was sent. -/
def AskResponse.confidenceOut : AskResponse → Option ℤ
  | .badRequest _ => none
  | .json b => some b.confidence

/-- The `answer` field of the JSON body, when one was sent. -/
def AskResponse.answerOut : AskResponse → Option String
  | .badRequest _ => none
  | .json b => some b.answer

/-! ### Small list helpers -/

theorem take_pos_ne_nil {α : Type} {l : List α} {k : ℕ} (h : l ≠ []) (hk : 1 ≤ k) :
    l.take k ≠ [] := by
  cases l with
  | nil => exact absurd rfl h
  | cons a t =>
    cases k with
    | zero => omega
    | succ n => simp

/-! ### Claim theorems -/

/-- Claim C1: re-ranking sorts candidates strictly by descending score with the
score field itself as the sort key: the candidate list
`[(doc1, 0.3), (doc2, 0.9), (doc3, 0.6)]` re-ranks to `[doc2, doc3, doc1]`,
and for every candidate list the output scores are non-increasing. -/
theorem searchSort_desc_by_score :
    sortSearchResults [⟨"doc1", 30⟩, ⟨"doc2", 90⟩, ⟨"doc3", 60⟩] =
      [⟨"doc2", 90⟩, ⟨"doc3", 60⟩, ⟨"doc1", 30⟩] ∧
    (∀ l : List SearchResult,
      (sortSearchResults l).Pairwise (fun a b => b.match_score ≤ a.match_score)) ∧
    (∀ l : List Recommendation,
      (sortRecs l).Pairwise (fun a b => b.match_score ≤ a.match_score)) := by
  refine ⟨by decide, ?_, ?_⟩
  · intro l
    exact sortDescBy_sorted SearchResult.match_score l
  · intro l
    refine (List.sorted_insertionSort recRel l).imp ?_
    rintro a b (hlt | ⟨heq, _⟩)
    · exact le_of_lt hlt
    · exact le_of_eq heq.symm

/-- Claim C2: for every question whose model invocation fails, the QA `/ask`
endpoint still answers through `res.json` (no HTTP error) with a best-effort
string answer and confidence 0.70, strictly lower than the success-path
confidence 0.88. -/
theorem qa_fallback_no_http_error (question : String)
    (mr : Except String PyResult) (csvLines : Option (List String))
    (hq : strTrim question ≠ "") (hf : modelFailed mr) :
    (askHandler question mr csvLines).isJson = true ∧
    (askHandler question mr csvLines).confidenceOut = some 70 ∧
    ((askHandler question mr csvLines).answerOut).isSome = true ∧
    (askHandler question (.ok ⟨"success", "ok-answer", ""⟩) csvLines).confidenceOut =
      some 88 ∧
    (70 : ℤ) < 88 := by
  have hsucc :
      askHandler question (.ok ⟨"success", "ok-answer", ""⟩) csvLines =
        .json ⟨question, "ok-answer", 88, "qa.py (DPR + FAISS + Groq)"⟩ := by
    unfold askHandler
    rw [if_neg hq]
    rfl
  have hfall : ∃ b : QABody, askHandler question mr csvLines = .json b ∧
      b.confidence = 70 := by
    unfold askHandler
    rw [if_neg hq]
    cases mr with
    | ok r =>
      have hr : r.status ≠ "success" := hf
      rw [askModelResponse, if_neg hr]
      exact ⟨_, rfl, rfl⟩
    | error msg => exact ⟨_, rfl, rfl⟩
  obtain ⟨b, hb, hb70⟩ := hfall
  rw [hb, hsucc]
  exact ⟨rfl, by simp [AskResponse.confidenceOut, hb70], rfl, rfl, by omega⟩

/-- Witness for C2 at a concrete failing invocation. -/
theorem qa_fallback_no_http_error_witness :
    (askHandler "What is diabetes" (.error "spawn failure") none).isJson = true ∧
    (askHandler "What is diabetes" (.error "spawn failure") none).confidenceOut =
      some 70 ∧
    ((askHandler "What is diabetes" (.error "spawn failure") none).answerOut).isSome
      = true ∧
    (askHandler "What is diabetes" (.ok ⟨"success", "ok-answer", ""⟩)
        none).confidenceOut = some 88 ∧
    (70 : ℤ) < 88 :=
  qa_fallback_no_http_error "What is diabetes" (.error "spawn failure") none
    (by decide) (by decide)

/-- Claim C9, counterexample: with `top_k = 0` the CSV fallback of the
recommendation endpoint returns an empty list even for a non-empty symptoms
array (the general recommendation is appended, but `slice(0, 0)` drops it). -/
theorem csvMedicines_empty_at_topk_zero :
    ["cough"] ≠ ([] : List String) ∧
    csvMedicines [("Ibuprofen", "Inflammation, pain, fever",
      "Stomach irritation, kidney problems")] ["cough"] 0 = [] := by
  constructor
  · decide
  · rfl

/-- Claim C9 (amended): for every non-empty symptoms array and every
`top_k ≥ 1`, the CSV fallback returns a non-empty recommendations list — if no
drug row matches, the fixed general recommendation (Paracetamol, confidence
0.70, match type `general_recommendation`) is appended before truncation. -/
theorem csvMedicines_ne_nil (drugsData : List (String × String × String))
    (symptoms : List String) (top_k : ℕ)
    (hs : symptoms ≠ []) (hk : 1 ≤ top_k) :
    csvMedicines drugsData symptoms top_k ≠ [] := by
  have key : csvMedicines drugsData symptoms top_k =
      (if sortRecs (conditionMatchRecs drugsData symptoms) = []
        then sortRecs (conditionMatchRecs drugsData symptoms) ++
          [generalRecommendation symptoms]
        else sortRecs (conditionMatchRecs drugsData symptoms)).take top_k := rfl
  rw [key]
  cases h : sortRecs (conditionMatchRecs drugsData symptoms) with
  | nil =>
    rw [if_pos rfl]
    exact take_pos_ne_nil (by simp) hk
  | cons a t =>
    rw [if_neg (by simp)]
    exact take_pos_ne_nil (by simp) hk

/-- Witness for the amended C9: concrete symptoms with no matching drug row
still produce a recommendation. -/
theorem csvMedicines_ne_nil_witness :
    csvMedicines [("Omeprazole", "Acid reflux, ulcers",
      "Headache, nausea, diarrhea")] ["dizziness"] 5 ≠ [] :=
  csvMedicines_ne_nil [("Omeprazole", "Acid reflux, ulcers",
      "Headache, nausea, diarrhea")] ["dizziness"] 5 (by decide) (by decide)

/-- Claim C10: every recommendation produced by the condition-matching path
has `matchScore ≥ 1` and confidence exactly `min(0.95, 0.5 + 0.15·matchScore)`
(in hundredths: `min 95 (50 + 15·matchScore)`), hence a confidence in
`[0.65, 0.95]`; the confidence formula is monotone in the match score. -/
theorem conditionMatch_confidence (drugsData : List (String × String × String))
    (symptoms : List String) (r : Recommendation)
    (hr : r ∈ conditionMatchRecs drugsData symptoms) :
    1 ≤ r.match_score ∧
    r.confidence_score = confidenceOf r.match_score ∧
    r.confidence_score = min 95 (50 + (r.match_score : ℤ) * 15) ∧
    65 ≤ r.confidence_score ∧ r.confidence_score ≤ 95 ∧
    r.match_type = "condition_match" ∧
    ∀ s t : ℕ, s ≤ t → confidenceOf s ≤ confidenceOf t := by
  obtain ⟨row, _, heq⟩ := List.mem_filterMap.mp hr
  by_cases hms : 0 < matchScoreOf row.2.1 symptoms
  · rw [if_pos hms] at heq
    obtain rfl := Option.some.injEq _ _ ▸ heq
    refine ⟨hms, rfl, rfl, ?_, ?_, rfl, ?_⟩
    · have h1 : (1 : ℤ) ≤ (matchScoreOf row.2.1 symptoms : ℤ) := by exact_mod_cast hms
      unfold confidenceOf
      have : (65 : ℤ) ≤ 50 + (matchScoreOf row.2.1 symptoms : ℤ) * 15 := by nlinarith
      exact le_min (by omega) this
    · exact min_le_left _ _
    · intro s t hst
      unfold confidenceOf
      have : (s : ℤ) ≤ (t : ℤ) := by exact_mod_cast hst
      exact min_le_min le_rfl (by nlinarith)
  · rw [if_neg hms] at heq
    exact absurd heq (by simp)

/-- Witness for C10: the concrete recommendation produced for symptom `fever`
against one matching drug row. -/
theorem conditionMatch_confidence_witness :
    1 ≤ (⟨"Paracetamol", "Pain relief, fever", "Nausea", ["fever"], 65, 1,
        "condition_match"⟩ : Recommendation).match_score ∧
    (⟨"Paracetamol", "Pain relief, fever", "Nausea", ["fever"], 65, 1,
        "condition_match"⟩ : Recommendation).confidence_score =
      confidenceOf (⟨"Paracetamol", "Pain relief, fever", "Nausea", ["fever"],
        65, 1, "condition_match"⟩ : Recommendation).match_score ∧
    (⟨"Paracetamol", "Pain relief, fever", "Nausea", ["fever"], 65, 1,
        "condition_match"⟩ : Recommendation).confidence_score =
      min 95 (50 + ((⟨"Paracetamol", "Pain relief, fever", "Nausea", ["fever"],
        65, 1, "condition_match"⟩ : Recommendation).match_score : ℤ) * 15) ∧
    65 ≤ (⟨"Paracetamol", "Pain relief, fever", "Nausea", ["fever"], 65, 1,
        "condition_match"⟩ : Recommendation).confidence_score ∧
    (⟨"Paracetamol", "Pain relief, fever", "Nausea", ["fever"], 65, 1,
        "condition_match"⟩ : Recommendation).confidence_score ≤ 95 ∧
    (⟨"Paracetamol", "Pain relief, fever", "Nausea", ["fever"], 65, 1,
        "condition_match"⟩ : Recommendation).match_type = "condition_match" ∧
    ∀ s t : ℕ, s ≤ t → confidenceOf s ≤ confidenceOf t :=
  conditionMatch_confidence [("Paracetamol", "Pain relief, fever", "Nausea")]
    ["fever"] _ (by decide)

/-! ### Lemmas about the spec-modelled Embedding Index -/

theorem scoredDocs_positions (idx : EmbeddingIndex) (qv : List ℤ) :
    (scoredDocs idx qv).map Prod.fst = List.range idx.docs.length := by
  unfold scoredDocs
  rw [List.map_map]
  exact List.enum_map_fst idx.docs

theorem rankedDocs_strict (idx : EmbeddingIndex) (qv : List ℤ) :
    (rankedDocs idx qv).Pairwise
      (fun t u => u.2.2 < t.2.2 ∨ (t.2.2 = u.2.2 ∧ t.1 < u.1)) := by
  apply rankSort_pairwise_strict
  rw [scoredDocs_positions]
  exact List.nodup_range _

theorem rankedDocs_length (idx : EmbeddingIndex) (qv : List ℤ) :
    (rankedDocs idx qv).length = idx.docs.length := by
  have h := (rankSort_perm (scoredDocs idx qv)).length_eq
  unfold rankedDocs
  rw [h]
  unfold scoredDocs
  rw [List.length_map, List.enum_length]

theorem queryResults_length (idx : EmbeddingIndex) (qv : List ℤ) (k : ℕ) :
    (queryResults idx qv k).length = min k idx.docs.length := by
  unfold queryResults
  rw [List.length_map, List.length_take, rankedDocs_length]

theorem queryResults_sorted (idx : EmbeddingIndex) (qv : List ℤ) (k : ℕ) :
    (queryResults idx qv k).Pairwise (fun a b => b.2 ≤ a.2) := by
  unfold queryResults
  rw [List.pairwise_map]
  refine ((rankedDocs_strict idx qv).sublist (List.take_sublist k _)).imp ?_
  rintro t u (hlt | ⟨heq, _⟩)
  · exact le_of_lt hlt
  · exact le_of_eq heq.symm

/-- Claim C3: for a loaded index of `N` documents, a query vector of the
index's dimension and a positive `k ≤ N`, `EmbeddingIndex.query` returns
exactly `min(k, N)` results sorted by non-increasing similarity, ties broken
by insertion order, and it fails with `EmptyIndexError` exactly when the index
holds zero documents. -/
theorem query_returns_min_k_sorted (idx : EmbeddingIndex) (qv : List ℤ) (k : ℕ)
    (hdim : qv.length = idx.dim) (hk : 0 < k) :
    (idx.query qv k = .error .emptyIndex ↔ idx.docs = []) ∧
    (k ≤ idx.docs.length →
      idx.query qv k = .ok (queryResults idx qv k) ∧
      (queryResults idx qv k).length = k) ∧
    (queryResults idx qv k).length = min k idx.docs.length ∧
    (queryResults idx qv k).Pairwise (fun a b => b.2 ≤ a.2) ∧
    (rankedDocs idx qv).Pairwise
      (fun t u => u.2.2 < t.2.2 ∨ (t.2.2 = u.2.2 ∧ t.1 < u.1)) := by
  have hok : idx.docs ≠ [] → idx.query qv k = .ok (queryResults idx qv k) := by
    intro hd
    unfold EmbeddingIndex.query
    rw [if_neg hd, if_neg (by simp [hdim])]
  refine ⟨?_, ?_, queryResults_length idx qv k, queryResults_sorted idx qv k,
    rankedDocs_strict idx qv⟩
  · constructor
    · intro h
      by_contra hd
      rw [hok hd] at h
      exact Except.noConfusion h
    · intro hd
      unfold EmbeddingIndex.query
      rw [if_pos hd]
  · intro hkN
    have hd : idx.docs ≠ [] := by
      intro hnil
      rw [hnil] at hkN
      simp at hkN
      omega
    exact ⟨hok hd, by rw [queryResults_length, min_eq_left hkN]⟩

/-- Witness for C3: a three-document index with a similarity tie between the
documents at positions 1 and 2. -/
theorem query_returns_min_k_sorted_witness :
    ((⟨[⟨0, "doc a", [2, 0]⟩, ⟨1, "doc b", [1, 1]⟩, ⟨2, "doc c", [1, 1]⟩], 2⟩ :
        EmbeddingIndex).query [1, 0] 2 = .error .emptyIndex ↔
      (⟨[⟨0, "doc a", [2, 0]⟩, ⟨1, "doc b", [1, 1]⟩, ⟨2, "doc c", [1, 1]⟩], 2⟩ :
        EmbeddingIndex).docs = []) ∧
    (2 ≤ (⟨[⟨0, "doc a", [2, 0]⟩, ⟨1, "doc b", [1, 1]⟩, ⟨2, "doc c", [1, 1]⟩], 2⟩ :
        EmbeddingIndex).docs.length →
      (⟨[⟨0, "doc a", [2, 0]⟩, ⟨1, "doc b", [1, 1]⟩, ⟨2, "doc c", [1, 1]⟩], 2⟩ :
          EmbeddingIndex).query [1, 0] 2 =
        .ok (queryResults ⟨[⟨0, "doc a", [2, 0]⟩, ⟨1, "doc b", [1, 1]⟩,
          ⟨2, "doc c", [1, 1]⟩], 2⟩ [1, 0] 2) ∧
      (queryResults ⟨[⟨0, "doc a", [2, 0]⟩, ⟨1, "doc b", [1, 1]⟩,
        ⟨2, "doc c", [1, 1]⟩], 2⟩ [1, 0] 2).length = 2) ∧
    (queryResults ⟨[⟨0, "doc a", [2, 0]⟩, ⟨1, "doc b", [1, 1]⟩,
      ⟨2, "doc c", [1, 1]⟩], 2⟩ [1, 0] 2).length =
      min 2 (⟨[⟨0, "doc a", [2, 0]⟩, ⟨1, "doc b", [1, 1]⟩, ⟨2, "doc c", [1, 1]⟩],
        2⟩ : EmbeddingIndex).docs.length ∧
    (queryResults ⟨[⟨0, "doc a", [2, 0]⟩, ⟨1, "doc b", [1, 1]⟩,
      ⟨2, "doc c", [1, 1]⟩], 2⟩ [1, 0] 2).Pairwise (fun a b => b.2 ≤ a.2) ∧
    (rankedDocs ⟨[⟨0, "doc a", [2, 0]⟩, ⟨1, "doc b", [1, 1]⟩,
      ⟨2, "doc c", [1, 1]⟩], 2⟩ [1, 0]).Pairwise
      (fun t u => u.2.2 < t.2.2 ∨ (t.2.2 = u.2.2 ∧ t.1 < u.1)) :=
  query_returns_min_k_sorted
    ⟨[⟨0, "doc a", [2, 0]⟩, ⟨1, "doc b", [1, 1]⟩, ⟨2, "doc c", [1, 1]⟩], 2⟩
    [1, 0] 2 (by decide) (by decide)

/-- Claim C4: on an index loaded from a non-empty vector collection of
dimension `D`, every query with a vector of a dimension other than `D` fails
with `DimensionMismatchError` (it is never truncated or padded into a result
list). -/
theorem query_dimension_strict (D : ℕ) (vectors : List (List ℤ))
    (documents : List (ℕ × String)) (idx : EmbeddingIndex) (qv : List ℤ) (k : ℕ)
    (hload : EmbeddingIndex.load D vectors documents = .ok idx)
    (hne : vectors ≠ []) (hqv : qv.length ≠ D) :
    idx.query qv k = .error .dimensionMismatch := by
  unfold EmbeddingIndex.load at hload
  by_cases h1 : vectors.length ≠ documents.length
  · rw [if_pos h1] at hload
    exact Except.noConfusion hload
  · rw [if_neg h1] at hload
    by_cases h2 : vectors.any (fun v => v.length ≠ D) = true
    · rw [if_pos h2] at hload
      exact Except.noConfusion hload
    · rw [if_neg h2] at hload
      injection hload with hidx
      have hdim' : idx.dim = D := by rw [← hidx]
      have hdocs : idx.docs ≠ [] := by
        rw [← hidx]
        show loadedDocs documents vectors ≠ []
        have hlen : vectors.length = documents.length := not_ne_iff.mp h1
        have hv : 0 < vectors.length := List.length_pos.mpr hne
        intro hnil
        have hlen0 := congrArg List.length hnil
        rw [loadedDocs, List.length_map, List.length_zip, List.length_nil,
          ← hlen, min_self] at hlen0
        omega
      unfold EmbeddingIndex.query
      rw [if_neg hdocs, if_pos (by rw [hdim']; exact hqv)]

/-- Witness for C4: a one-vector index of dimension 2 queried with a
three-dimensional vector. -/
theorem query_dimension_strict_witness :
    (⟨[⟨0, "doc a", [1, 0]⟩], 2⟩ : EmbeddingIndex).query [1, 0, 0] 1 =
      .error .dimensionMismatch :=
  query_dimension_strict 2 [[1, 0]] [(0, "doc a")] ⟨[⟨0, "doc a", [1, 0]⟩], 2⟩
    [1, 0, 0] 1 rfl (by decide) (by decide)

/-! ### Lemmas about the spec-modelled Keyword Fallback Retriever -/

theorem keywordScored_positions (queryText : String) (corpus : List Document) :
    (keywordScored queryText corpus).map Prod.fst = List.range corpus.length := by
  unfold keywordScored
  rw [List.map_map]
  exact List.enum_map_fst corpus

theorem keywordRanked_length (queryText : String) (corpus : List Document) :
    (keywordRanked queryText corpus).length = corpus.length := by
  have h := (rankSort_perm (keywordScored queryText corpus)).length_eq
  unfold keywordRanked
  rw [h]
  unfold keywordScored
  rw [List.length_map, List.enum_length]

/-- Claim C5: the keyword fallback retriever scores each document by its
case-insensitive token-overlap count with the query and returns the top-k
documents by descending score, documents of equal score staying in corpus
order. -/
theorem keywordRetrieve_topk_stable (queryText : String) (corpus : List Document)
    (k : ℕ) :
    (keywordRanked queryText corpus).Pairwise
      (fun t u => u.2.2 < t.2.2 ∨ (t.2.2 = u.2.2 ∧ t.1 < u.1)) ∧
    (keywordRanked queryText corpus).map (fun t => t.2.2) =
      (keywordRanked queryText corpus).map
        (fun t => overlapCount (tokenize queryText) (tokenize t.2.1.text)) ∧
    keywordRetrieve queryText corpus k =
      ((keywordRanked queryText corpus).take k).map (fun t => t.2.1) ∧
    (keywordRetrieve queryText corpus k).length = min k corpus.length := by
  refine ⟨?_, ?_, rfl, ?_⟩
  · apply rankSort_pairwise_strict
    rw [keywordScored_positions]
    exact List.nodup_range _
  · apply List.map_congr_left
    intro t ht
    have ht' : t ∈ keywordScored queryText corpus :=
      (rankSort_perm (keywordScored queryText corpus)).mem_iff.mp ht
    obtain ⟨p, _, rfl⟩ := List.mem_map.mp ht'
    rfl
  · unfold keywordRetrieve
    rw [List.length_map, List.length_take, keywordRanked_length]

/-! ### Lemmas about the spec-modelled Retrieval Orchestrator -/

theorem dedupeByIdAux_subset (l : List (Document × ℤ)) :
    ∀ seen, ∀ y ∈ dedupeByIdAux seen l, y ∈ l := by
  induction l with
  | nil =>
    intro seen y hy
    exact absurd hy (List.not_mem_nil y)
  | cons x xs ih =>
    intro seen y hy
    rw [dedupeByIdAux] at hy
    by_cases hx : x.1.id ∈ seen
    · rw [if_pos hx] at hy
      exact List.mem_cons_of_mem _ (ih seen y hy)
    · rw [if_neg hx] at hy
      rcases List.mem_cons.mp hy with rfl | hy'
      · exact List.mem_cons_self _ _
      · exact List.mem_cons_of_mem _ (ih _ y hy')

theorem dedupeByIdAux_nodup (l : List (Document × ℤ)) :
    ∀ seen, ((dedupeByIdAux seen l).map (fun p => p.1.id)).Nodup ∧
      ∀ i ∈ (dedupeByIdAux seen l).map (fun p => p.1.id), i ∉ seen := by
  induction l with
  | nil =>
    intro seen
    rw [dedupeByIdAux]
    exact ⟨List.nodup_nil, by simp⟩
  | cons x xs ih =>
    intro seen
    rw [dedupeByIdAux]
    by_cases hx : x.1.id ∈ seen
    · rw [if_pos hx]
      exact ih seen
    · rw [if_neg hx, List.map_cons]
      obtain ⟨ihn, ihs⟩ := ih (x.1.id :: seen)
      refine ⟨List.nodup_cons.mpr ⟨?_, ihn⟩, ?_⟩
      · intro hmem
        exact ihs _ hmem (List.mem_cons_self _ _)
      · intro i hi
        rcases List.mem_cons.mp hi with rfl | hi'
        · exact hx
        · intro hcontra
          exact ihs i hi' (List.mem_cons_of_mem _ hcontra)

theorem dedupeById_nodup (l : List (Document × ℤ)) :
    ((dedupeById l).map (fun p => p.1.id)).Nodup :=
  (dedupeByIdAux_nodup l []).1

theorem dedupe_take_ids_nodup (l : List (Document × ℤ)) (k : ℕ) :
    ((((dedupeById l).take k).map (fun p => p.1.id)).Nodup) ∧
    ((dedupeById l).take k).length ≤ k := by
  constructor
  · exact ((List.take_sublist k _).map _).nodup (dedupeById_nodup l)
  · rw [List.length_take]
    exact min_le_left _ _

/-- Claim C6: whenever the Retrieval Orchestrator produces a result list, the
list carries no two entries with the same document id (deduplication happens
before truncation) and has length at most `k`. -/
theorem retrieveContext_nodup_le_k (idx : EmbeddingIndex) (question : String)
    (qv : List ℤ) (corpus : List Document) (k : ℕ) (rs : List (Document × ℤ))
    (hk : 0 < k) (h : retrieveContext idx question qv corpus k = .ok rs) :
    (rs.map (fun p => p.1.id)).Nodup ∧ rs.length ≤ k := by
  unfold retrieveContext at h
  cases hq : idx.query qv k with
  | ok rs0 =>
    rw [hq] at h
    simp only [Except.ok.injEq] at h
    rw [← h]
    exact dedupe_take_ids_nodup rs0 k
  | error e =>
    rw [hq] at h
    cases e with
    | emptyIndex =>
      simp only [Except.ok.injEq] at h
      rw [← h]
      exact dedupe_take_ids_nodup _ k
    | dimensionMismatch => exact Except.noConfusion h
    | sizeMismatch => exact Except.noConfusion h

/-! ### Lemmas about the spec-modelled Knowledge Graph Expander -/

theorem bfsLoop_nil (g : KGraph) :
    ∀ hops maxNodes, g.bfsLoop hops maxNodes [] [] = [] := by
  intro hops
  induction hops with
  | zero =>
    intro mn
    rfl
  | succ n ih =>
    intro mn
    rw [KGraph.bfsLoop]
    split
    · rfl
    · have hd : g.discover [] [] = [] := by
        simp [KGraph.discover]
      simp [hd, ih mn]

/-- Claim C7: expansion from a seed set none of whose ids exists in the graph
returns the empty set, for all positive hop and node bounds, without raising
an error. -/
theorem expand_absent_seeds_empty (g : KGraph) (seedNodeIds : List String)
    (maxHops maxNodes : ℕ) (hh : 0 < maxHops) (hn : 0 < maxNodes)
    (habsent : ∀ s ∈ seedNodeIds, s ∉ g.nodes) :
    g.expand seedNodeIds maxHops maxNodes = [] := by
  have hfilter : seedNodeIds.filter (fun s => g.nodes.contains s) = [] := by
    rw [List.filter_eq_nil_iff]
    intro s hs
    simpa using habsent s hs
  unfold KGraph.expand
  rw [hfilter]
  simp [bfsLoop_nil]

/-- Witness for C7: a directed two-node graph expanded from an absent seed. -/
theorem expand_absent_seeds_empty_witness :
    KGraph.expand ⟨["DRUG::paracetamol", "CONDITION::fever"],
      [("DRUG::paracetamol", "CONDITION::fever")], true⟩
      ["SYMPTOM::chills"] 2 10 = [] :=
  expand_absent_seeds_empty ⟨["DRUG::paracetamol", "CONDITION::fever"],
      [("DRUG::paracetamol", "CONDITION::fever")], true⟩
    ["SYMPTOM::chills"] 2 10 (by decide) (by decide) (by decide)

/-- Claim C8: a generation response with zero choices makes `synthesize` fail
with `GenerationEmptyError` after exactly one external call (no retry), and
the fallback answers with the single highest-scored context passage verbatim
at the lowered confidence. -/
theorem synthesize_empty_choices_fallback (context : List (String × ℤ))
    (second : Except Unit GenResponse) (hc : context ≠ []) :
    synthesize (.ok ⟨[]⟩) second = (.error .generationEmpty, 1) ∧
    answerPipeline context (.ok ⟨[]⟩) second =
      (topPassage context, loweredConfidence) ∧
    loweredConfidence < answerConfidence ∧
    (sortPassages context).headD ("", 0) ∈ context ∧
    context.all
      (fun q => decide (q.2 ≤ ((sortPassages context).headD ("", 0)).2)) = true := by
  obtain ⟨hmem, hmax⟩ := sortDescBy_headD_max Prod.snd context hc ("", 0)
  refine ⟨rfl, rfl, by decide, hmem, ?_⟩
  rw [List.all_eq_true]
  intro q hq
  exact decide_eq_true (hmax q hq)

/-- Witness for C8: a two-passage context whose higher-scored passage is the
fallback answer. -/
theorem synthesize_empty_choices_fallback_witness :
    synthesize (.ok ⟨[]⟩) (.error ()) = (.error .generationEmpty, 1) ∧
    answerPipeline [("low passage", 10), ("high passage", 60)] (.ok ⟨[]⟩)
        (.error ()) =
      (topPassage [("low passage", 10), ("high passage", 60)],
        loweredConfidence) ∧
    loweredConfidence < answerConfidence ∧
    (sortPassages [("low passage", 10), ("high passage", 60)]).headD ("", 0) ∈
      [("low passage", 10), ("high passage", 60)] ∧
    ([("low passage", 10), ("high passage", 60)] : List (String × ℤ)).all
      (fun q => decide (q.2 ≤
        ((sortPassages [("low passage", 10),
          ("high passage", 60)]).headD ("", 0)).2)) = true :=
  synthesize_empty_choices_fallback [("low passage", 10), ("high passage", 60)]
    (.error ()) (by decide)

/-- Witness for C6: an empty index falls back to keyword retrieval; the result
is id-deduplicated and within the `k` bound. -/
theorem retrieveContext_nodup_le_k_witness :
    (([((⟨7, "fever pain", [0, 0]⟩ : Document), (25 : ℤ))].map
      (fun p => p.1.id)).Nodup) ∧
    ([((⟨7, "fever pain", [0, 0]⟩ : Document), (25 : ℤ))].length ≤ 1) :=
  retrieveContext_nodup_le_k ⟨[], 2⟩ "fever" [1, 0]
    [⟨7, "fever pain", [0, 0]⟩, ⟨9, "cold", [0, 0]⟩] 1
    [(⟨7, "fever pain", [0, 0]⟩, 25)] (by decide) rfl
